import Mathlib

/-!
Verification of the `lqg` repository (src/lqg/model.py) against its
natural-language specification.

The embedding below is a shallow embedding of `src/lqg/model.py`:

* Machine floats are modelled by exact rationals `ℚ` (and by `ℝ` where the
  source computes genuinely real-valued quantities such as Gaussian
  log-densities).
* `jnp` arrays are modelled by Mathlib matrices `Matrix (Fin m) (Fin n) ℚ`
  (dimension-typed parts) and by `List (List ℚ)` (dimension-checked parts,
  used to state shape-error behaviour).
* `jax.lax.scan` is modelled by an explicit structural recursion `scan`.
* The feedback gain `L = actor.L(T)` and estimator gain `K = actor.K(T)`
  are produced by `lqg/lqr.py` and `lqg/kalman.py`, which are out of scope
  for the spec (external "GainProvider") and absent from the sources; the
  way `model.py` uses them (`L @ x_hat` with the result fed to `B @ u`,
  `K @ (y - C @ x_pred)`) forces each to be a single matrix of shape
  (udim × bdim) resp. (bdim × obsdim).  They are therefore threaded through
  the embedding as explicit single-matrix parameters.
* `jax.random` keys are modelled by a deterministic splittable key type
  (`ℕ` with a fixed split function) and `random.normal` by a fixed
  deterministic function of the key; the distributional aspects of the
  noise are not needed by any claim.
* In `model.py` the observation-noise array `eta` is drawn with shape
  `(T, x0.shape[0])` (state dimension) and multiplied by the
  (obsdim × obsdim) matrix `W`, and `C` maps states to observations while
  `C @ x0 + V @ eta[0]` must typecheck; all of this forces
  obsdim = statedim, as in the repository demo (`C = jnp.eye(2)`).  The
  typed embedding therefore uses the state dimension `s` for observations.
-/

namespace LQG

open Matrix

abbrev Mat (m n : ℕ) : Type := Matrix (Fin m) (Fin n) ℚ

abbrev Vec (n : ℕ) : Type := Fin n → ℚ

/-- Embeds the `Dynamics` dataclass (model.py lines 11-17): plant matrices
A (s×s), B (s×a), C (obs×s), V (s×s), W (obs×obs), with obs = s (see header). -/
structure Dynamics (s a : ℕ) where
  A : Mat s s
  B : Mat s a
  C : Mat s s
  V : Mat s s
  W : Mat s s
deriving DecidableEq

/-- Embeds the `Actor` dataclass (model.py lines 20-28): the controller's
internal model matrices plus the cost matrices Q, R.  Only A, B, C are used
by `System.simulate` and `conditional_moments`; V, W, Q, R are consumed by
the external gain routines (`Actor.L`, `Actor.K`), which are modelled as
explicit gain-matrix parameters. -/
structure Actor (s b a : ℕ) where
  A : Mat b b
  B : Mat b a
  C : Mat s b
  V : Mat b b
  W : Mat s s
  Q : Mat b b
  R : Mat a a
deriving DecidableEq

/-- Embeds `jax.lax.scan` (used at model.py lines 125 and 176): left-to-right
scan returning the final carry and the list of per-step outputs. -/
def scan {σ α β : Type} (f : σ → α → σ × β) : σ → List α → σ × List β
  | c, [] => (c, [])
  | c, t :: ts =>
    let r := f c t
    let rest := scan f r.1 ts
    (rest.1, r.2 :: rest.2)

/-- Embeds the body of `loop` inside `System.simulate.simulate_trial`
(model.py lines 107-123).  The carry is the pair (plant state x, belief
x_hat); the per-step output is (x, x_hat, y, u).  `L` and `K` are the
matrices bound once at lines 82-83; the body applies them unchanged at
every step (no indexing by `t` occurs in the source). -/
def loop {s b a : ℕ} (dyn : Dynamics s a) (act : Actor s b a)
    (L : Mat a b) (K : Mat b s) (eps eta : ℕ → Vec s)
    (c : Vec s × Vec b) (t : ℕ) : (Vec s × Vec b) × (Vec s × Vec b × Vec s × Vec a) :=
  let u : Vec a := -(L.mulVec c.2)
  let x : Vec s := dyn.A.mulVec c.1 + dyn.B.mulVec u + dyn.V.mulVec (eps t)
  let y : Vec s := dyn.C.mulVec x + dyn.W.mulVec (eta t)
  let xpred : Vec b := act.A.mulVec c.2 + act.B.mulVec u
  let xhat : Vec b := xpred + K.mulVec (y - act.C.mulVec xpred)
  ((x, xhat), (x, xhat, y, u))

/-- A single simulated trial: the four stacked outputs returned by
`simulate_trial` (model.py lines 127-128). -/
structure Traj (s b a : ℕ) where
  states : List (Vec s)
  beliefs : List (Vec b)
  obs : List (Vec s)
  actions : List (Vec a)
deriving DecidableEq

instance {s b a : ℕ} : Inhabited (Traj s b a) := ⟨⟨[], [], [], []⟩⟩

/-- Embeds `simulate_trial` (model.py lines 85-128).  The scan runs over
`jnp.arange(1, T)`, i.e. the indices 1, ..., T-1; the returned state and
belief sequences prepend the initial values; the returned observation array
is `jnp.vstack([C @ x0 + V @ eta[0]])`, a single row built from the initial
state (note: `V`, not `W`, and the reuse of `eta[0]`), exactly as in the
source. -/
def simulate_trial {s b a : ℕ} (dyn : Dynamics s a) (act : Actor s b a)
    (L : Mat a b) (K : Mat b s) (T : ℕ) (x0 : Vec s) (xhat0 : Vec b)
    (eps eta : ℕ → Vec s) : Traj s b a :=
  let out := (scan (loop dyn act L K eps eta) (x0, xhat0) (List.range' 1 (T - 1))).2
  { states := x0 :: out.map (fun o => o.1)
    beliefs := xhat0 :: out.map (fun o => o.2.1)
    obs := [dyn.C.mulVec x0 + dyn.V.mulVec (eta 0)]
    actions := out.map (fun o => o.2.2.2) }

/-- Models `jax.random.split(key)` (model.py lines 102, 104) by a fixed
deterministic injective pairing on a countable key space. -/
def keySplit (k : ℕ) : ℕ × ℕ := (2 * k + 1, 2 * k + 2)

/-- Models `jax.random.split(key, num=n)` (model.py line 132): n derived
keys, each a deterministic function of the parent key. -/
def keySplitMany (k n : ℕ) : List ℕ :=
  (List.range n).map (fun i => 2 * k + 3 * i + 5)

/-- Models `jax.random.normal(key, shape=(T, s))` (model.py lines 103, 105):
a deterministic array of draws indexed by (row, component), a pure function
of the key.  The actual distribution of jax's threefry generator is
irrelevant to every claim; only determinism in the key matters. -/
def gaussDraw (s : ℕ) (k : ℕ) : ℕ → Vec s :=
  fun t i => (k : ℚ) + t + i

/-- Embeds `System.simulate` (model.py lines 69-137) with `return_all`
semantics (all four outputs kept).  Each of the `n` trials runs
`simulate_trial` on its own derived key; the initial state defaults to the
zero vector and the initial belief is always zero (lines 98-99); the noise
arrays are drawn from two sub-keys split off the trial key (lines 102-105). -/
def simulate {s b a : ℕ} (dyn : Dynamics s a) (act : Actor s b a)
    (L : Mat a b) (K : Mat b s) (key : ℕ) (n T : ℕ) (x0o : Option (Vec s)) :
    List (Traj s b a) :=
  (keySplitMany key n).map (fun k =>
    let x0 : Vec s := x0o.getD 0
    let xhat0 : Vec b := 0
    let r1 := keySplit k
    let eps := gaussDraw s r1.2
    let r2 := keySplit r1.1
    let eta := gaussDraw s r2.2
    simulate_trial dyn act L K T x0 xhat0 eps eta)

/-- Transcribed from claim C4's words (spec section 4.2 step 3a, 3e): a
variant of the loop body in which step `t` selects the time-indexed gains
`Ls t` and `Ks t` from gain sequences, instead of applying fixed matrices. -/
def loopIndexed {s b a : ℕ} (dyn : Dynamics s a) (act : Actor s b a)
    (Ls : ℕ → Mat a b) (Ks : ℕ → Mat b s) (eps eta : ℕ → Vec s)
    (c : Vec s × Vec b) (t : ℕ) : (Vec s × Vec b) × (Vec s × Vec b × Vec s × Vec a) :=
  let u : Vec a := -((Ls t).mulVec c.2)
  let x : Vec s := dyn.A.mulVec c.1 + dyn.B.mulVec u + dyn.V.mulVec (eps t)
  let y : Vec s := dyn.C.mulVec x + dyn.W.mulVec (eta t)
  let xpred : Vec b := act.A.mulVec c.2 + act.B.mulVec u
  let xhat : Vec b := xpred + (Ks t).mulVec (y - act.C.mulVec xpred)
  ((x, xhat), (x, xhat, y, u))

/-- Transcribed from claim C4's words: `simulate_trial` with per-step
selection of time-indexed gains. -/
def simulate_trial_indexed {s b a : ℕ} (dyn : Dynamics s a) (act : Actor s b a)
    (Ls : ℕ → Mat a b) (Ks : ℕ → Mat b s) (T : ℕ) (x0 : Vec s) (xhat0 : Vec b)
    (eps eta : ℕ → Vec s) : Traj s b a :=
  let out := (scan (loopIndexed dyn act Ls Ks eps eta) (x0, xhat0) (List.range' 1 (T - 1))).2
  { states := x0 :: out.map (fun o => o.1)
    beliefs := xhat0 :: out.map (fun o => o.2.1)
    obs := [dyn.C.mulVec x0 + dyn.V.mulVec (eta 0)]
    actions := out.map (fun o => o.2.2.2) }

/-- Embeds `jnp.linalg.inv` (model.py lines 170, 172).  `jnp.linalg.inv`
never raises on a singular input (unlike `numpy`); it is a total function
returning non-finite garbage there.  In the exact-arithmetic embedding we
use the adjugate formula `det⁻¹ • adjugate`, which agrees with the true
inverse on invertible matrices and (since `(0 : ℚ)⁻¹ = 0`) returns the zero
matrix on singular ones; in particular it is total, as in the source. -/
def mInv {m : ℕ} (M : Mat m m) : Mat m m := (M.det)⁻¹ • M.adjugate

/-- Column slice `M[:, :d]` (model.py lines 170, 172). -/
def colsObs {m D d : ℕ} (h : d ≤ D) (M : Matrix (Fin m) (Fin D) ℚ) :
    Matrix (Fin m) (Fin d) ℚ := M.submatrix id (Fin.castLE h)

/-- Row slice `M[:d, :]` (model.py line 172). -/
def rowsObs {D d m : ℕ} (h : d ≤ D) (M : Matrix (Fin D) (Fin m) ℚ) :
    Matrix (Fin d) (Fin m) ℚ := M.submatrix (Fin.castLE h) id

/-- Block slice `M[:d, :d]` (model.py lines 170, 172). -/
def blockObs {D d : ℕ} (h : d ≤ D) (M : Mat D D) : Mat d d :=
  M.submatrix (Fin.castLE h) (Fin.castLE h)

/-- Block assembly `jnp.vstack([jnp.hstack([...]), jnp.hstack([...])])`
(model.py lines 155-162), re-indexed onto `Fin (m₁ + m₂)`. -/
def blockMat {m₁ m₂ n₁ n₂ : ℕ} (A : Matrix (Fin m₁) (Fin n₁) ℚ)
    (B : Matrix (Fin m₁) (Fin n₂) ℚ) (C : Matrix (Fin m₂) (Fin n₁) ℚ)
    (D : Matrix (Fin m₂) (Fin n₂) ℚ) : Matrix (Fin (m₁ + m₂)) (Fin (n₁ + n₂)) ℚ :=
  Matrix.reindex finSumFinEquiv finSumFinEquiv (Matrix.fromBlocks A B C D)

/-- Embeds the augmented transition matrix `F` (model.py lines 155-159):
`[[A, -B L], [K C A, actA - actB L - K actC actA]]`. -/
def Fmat {s b a : ℕ} (dyn : Dynamics s a) (act : Actor s b a)
    (L : Mat a b) (K : Mat b s) : Mat (s + b) (s + b) :=
  blockMat dyn.A (-(dyn.B * L)) (K * dyn.C * dyn.A)
    (act.A - act.B * L - K * act.C * act.A)

/-- Embeds the augmented noise-shaping matrix `G` (model.py lines 161-162):
`[[V, zeros_like(C.T)], [K C V, K W]]` (with obsdim = s, `zeros_like(C.T)`
is an s×s zero block). -/
def Gmat {s b a : ℕ} (dyn : Dynamics s a) (K : Mat b s) : Matrix (Fin (s + b)) (Fin (s + s)) ℚ :=
  blockMat dyn.V (0 : Mat s s) (K * dyn.C * dyn.V) (K * dyn.W)

/-- Embeds the scan body `f` of `System.conditional_moments` (model.py
lines 167-174), in the source's row-vector convention (`mu` is an n×D stack
of row vectors, D = s + b; `d` is the third dimension of the data array):

  mu    = mu @ F.T + (xt - mu[:, :d]) @ inv(Sigma[:d, :d]).T @ (F @ Sigma)[:, :d].T
  Sigma = F @ Sigma @ F.T + G @ G.T
            - (F @ Sigma)[:, :d] @ inv(Sigma[:d, :d]) @ (Sigma @ F.T)[:d, :]

Note that the inverted block `Sigma[:d, :d]` and the innovation reference
`mu[:, :d]` are taken from the incoming carry (the pre-prediction prior). -/
def condStep {D E d n : ℕ} (h : d ≤ D) (F : Mat D D) (G : Matrix (Fin D) (Fin E) ℚ)
    (c : Matrix (Fin n) (Fin D) ℚ × Mat D D) (xt : Matrix (Fin n) (Fin d) ℚ) :
    (Matrix (Fin n) (Fin D) ℚ × Mat D D) × (Matrix (Fin n) (Fin D) ℚ × Mat D D) :=
  let mu := c.1 * Fᵀ +
    (xt - colsObs h c.1) * (mInv (blockObs h c.2))ᵀ * (colsObs h (F * c.2))ᵀ
  let Sigma := F * c.2 * Fᵀ + G * Gᵀ -
    colsObs h (F * c.2) * mInv (blockObs h c.2) * rowsObs h (c.2 * Fᵀ)
  ((mu, Sigma), (mu, Sigma))

/-- Embeds `System.conditional_moments` (model.py lines 139-177): the scan
over the time axis of the data `x` (a list of n×d matrices), initialized
with `mu = zeros((n, s+b)) if mu0 is None else mu0` and `Sigma = G @ G.T`
(lines 164-165), returning the per-step emitted `(mu, Sigma)` pairs. -/
def conditional_moments {D E d n : ℕ} (h : d ≤ D) (F : Mat D D)
    (G : Matrix (Fin D) (Fin E) ℚ) (x : List (Matrix (Fin n) (Fin d) ℚ))
    (mu0 : Option (Matrix (Fin n) (Fin D) ℚ)) :
    List (Matrix (Fin n) (Fin D) ℚ × Mat D D) :=
  (scan (condStep h F G) (mu0.getD 0, G * Gᵀ) x).2

/-- The same scan as `conditional_moments` but with an arbitrary explicit
initial carry, used to state claim C10 about the initialization. -/
def conditional_moments_from {D E d n : ℕ} (h : d ≤ D) (F : Mat D D)
    (G : Matrix (Fin D) (Fin E) ℚ) (x : List (Matrix (Fin n) (Fin d) ℚ))
    (mu0 : Matrix (Fin n) (Fin D) ℚ) (Sigma0 : Mat D D) :
    List (Matrix (Fin n) (Fin D) ℚ × Mat D D) :=
  (scan (condStep h F G) (mu0, Sigma0) x).2

/-- Transcribed from claim C1's words (spec section 4.3, steps 1-2): first
predict `mu_pred = mu Fᵀ`, `Sigma_pred = F Sigma Fᵀ + G Gᵀ`, then condition
on the observed sub-block taking the innovation reference and the inverted
block from the *predicted* moments. -/
def condStepSpec {D E d n : ℕ} (h : d ≤ D) (F : Mat D D) (G : Matrix (Fin D) (Fin E) ℚ)
    (c : Matrix (Fin n) (Fin D) ℚ × Mat D D) (xt : Matrix (Fin n) (Fin d) ℚ) :
    (Matrix (Fin n) (Fin D) ℚ × Mat D D) × (Matrix (Fin n) (Fin D) ℚ × Mat D D) :=
  let mupred := c.1 * Fᵀ
  let Sigmapred := F * c.2 * Fᵀ + G * Gᵀ
  let mu := mupred +
    (xt - colsObs h mupred) * (mInv (blockObs h Sigmapred))ᵀ * (colsObs h Sigmapred)ᵀ
  let Sigma := Sigmapred -
    colsObs h Sigmapred * mInv (blockObs h Sigmapred) * rowsObs h Sigmapred
  ((mu, Sigma), (mu, Sigma))

/-- Conditioning of the incoming prior on its own observed sub-block (the
standard Gaussian-conditioning identity applied to the pre-prediction
moments); used to state what the source's fused update actually does. -/
def priorCondition {D d n : ℕ} (h : d ≤ D)
    (c : Matrix (Fin n) (Fin D) ℚ × Mat D D) (xt : Matrix (Fin n) (Fin d) ℚ) :
    Matrix (Fin n) (Fin D) ℚ × Mat D D :=
  (c.1 + (xt - colsObs h c.1) * (mInv (blockObs h c.2))ᵀ * (colsObs h c.2)ᵀ,
   c.2 - colsObs h c.2 * mInv (blockObs h c.2) * rowsObs h c.2)

/-- The pure prediction step `mu ↦ mu Fᵀ`, `Sigma ↦ F Sigma Fᵀ + G Gᵀ`. -/
def predictMoments {D E n : ℕ} (F : Mat D D) (G : Matrix (Fin D) (Fin E) ℚ)
    (c : Matrix (Fin n) (Fin D) ℚ × Mat D D) :
    Matrix (Fin n) (Fin D) ℚ × Mat D D :=
  (c.1 * Fᵀ, F * c.2 * Fᵀ + G * Gᵀ)

/-- Embeds `System.conditional_distribution` (model.py lines 179-182): for
each time step, the parameters of the multivariate normal
`MVN(mu[:, :, :d], Sigma[:, :d, :d])` (the axis transposes in the source
only reorder the batch dimensions and are immaterial to the per-(step,
trial) values). -/
def conditional_distribution {D E d n : ℕ} (h : d ≤ D) (F : Mat D D)
    (G : Matrix (Fin D) (Fin E) ℚ) (x : List (Matrix (Fin n) (Fin d) ℚ)) :
    List (Matrix (Fin n) (Fin d) ℚ × Mat d d) :=
  (conditional_moments h F G x none).map (fun p => (colsObs h p.1, blockObs h p.2))

/-- The log-density of the multivariate normal `N(mu, S)` at `xv`, as
computed by `numpyro.distributions.MultivariateNormal.log_prob`:
`-(1/2) (x-mu)ᵀ S⁻¹ (x-mu) - (1/2) log((2 pi)^d det S)`. -/
noncomputable def gaussLogPdf {d : ℕ} (xv mu : Fin d → ℝ)
    (S : Matrix (Fin d) (Fin d) ℝ) : ℝ :=
  -(1 / 2) * dotProduct (xv - mu) (((S.det)⁻¹ • S.adjugate).mulVec (xv - mu)) -
    (1 / 2) * Real.log ((2 * Real.pi) ^ d * S.det)

/-- Embeds `System.log_likelihood` (model.py lines 184-185):
`conditional_distribution(x[:-1]).log_prob(x[1:].transpose((1, 0, 2)))`.
The result is the array of per-(step, trial) log-densities of shape
(n, T-1) — `MultivariateNormal.log_prob` reduces only the event dimension,
so no summation over time occurs in the source.  Here the outer list runs
over the T-1 scored steps and each entry maps the trial index to the
log-density. -/
noncomputable def log_likelihood {D E d n : ℕ} (h : d ≤ D) (F : Mat D D)
    (G : Matrix (Fin D) (Fin E) ℚ) (x : List (Matrix (Fin n) (Fin d) ℚ)) :
    List (Fin n → ℝ) :=
  ((conditional_distribution h F G x.dropLast).zip x.tail).map
    (fun p i => gaussLogPdf (fun j => ((p.2 i j : ℚ) : ℝ))
      (fun j => ((p.1.1 i j : ℚ) : ℝ)) ((p.1.2).map Rat.cast))

/-!
Untyped (dimension-checked) layer.  `jax` reports mismatched array shapes
with an eagerly raised error during tracing; the spec's taxonomy calls the
initial-state variant of this failure a `DimensionError` (spec sections 4.2
and 7).  To state claims about calls whose arguments have the *wrong*
shape, matrices and vectors are lists here and each `jnp` operation checks
the dimensions it needs, as jax's tracer does.
-/

/-- The single error class of the untyped layer: a dimension mismatch
detected at the point of use, the spec's `DimensionError`. -/
inductive LqgError where
  | dimensionError
deriving DecidableEq

/-- Dot product of two rational lists (total; lengths are checked by the
callers, as jax checks shapes before computing). -/
def dotL (r v : List ℚ) : ℚ :=
  ((r.zip v).map (fun p => p.1 * p.2)).foldl (fun acc q => acc + q) 0

/-- Matrix-vector product `A @ v` with jax-style eager shape checking:
every row of `A` must have length `v.length`. -/
def mulMV (A : List (List ℚ)) (v : List ℚ) : Except LqgError (List ℚ) :=
  if A.all (fun r => r.length == v.length) then
    Except.ok (A.map (fun r => dotL r v))
  else Except.error LqgError.dimensionError

/-- Vector addition with jax-style shape checking. -/
def addV (u v : List ℚ) : Except LqgError (List ℚ) :=
  if u.length == v.length then Except.ok (List.zipWith (fun p q => p + q) u v)
  else Except.error LqgError.dimensionError

/-- Vector subtraction with jax-style shape checking. -/
def subV (u v : List ℚ) : Except LqgError (List ℚ) :=
  if u.length == v.length then Except.ok (List.zipWith (fun p q => p - q) u v)
  else Except.error LqgError.dimensionError

/-- The loop body of `simulate_trial` (model.py lines 107-123) over checked
lists, performing the same operations in the same order as the source. -/
def loopChecked (A B C V W Aa Ba Ca L K : List (List ℚ)) (eps eta : ℕ → List ℚ)
    (c : List ℚ × List ℚ) (t : ℕ) :
    Except LqgError ((List ℚ × List ℚ) × (List ℚ × List ℚ × List ℚ × List ℚ)) := do
  let u0 ← mulMV L c.2
  let u := u0.map (fun q => -q)
  let x1 ← mulMV A c.1
  let x2 ← mulMV B u
  let x3 ← mulMV V (eps t)
  let x ← addV (← addV x1 x2) x3
  let y1 ← mulMV C x
  let y2 ← mulMV W (eta t)
  let y ← addV y1 y2
  let p1 ← mulMV Aa c.2
  let p2 ← mulMV Ba u
  let xpred ← addV p1 p2
  let cxp ← mulMV Ca xpred
  let inn ← subV y cxp
  let kin ← mulMV K inn
  let xhat ← addV xpred kin
  pure ((x, xhat), (x, xhat, y, u))

/-- Error-propagating scan over the checked loop. -/
def scanChecked {σ β : Type} (f : σ → ℕ → Except LqgError (σ × β)) :
    σ → List ℕ → Except LqgError (σ × List β)
  | c, [] => Except.ok (c, [])
  | c, t :: ts => do
    let r ← f c t
    let rest ← scanChecked f r.1 ts
    pure (rest.1, r.2 :: rest.2)

/-- `simulate_trial` (model.py lines 85-128) over checked lists. -/
def simulate_trial_checked (A B C V W Aa Ba Ca L K : List (List ℚ)) (T : ℕ)
    (x0 xhat0 : List ℚ) (eps eta : ℕ → List ℚ) :
    Except LqgError (List (List ℚ) × List (List ℚ) × List (List ℚ) × List (List ℚ)) := do
  let r ← scanChecked (loopChecked A B C V W Aa Ba Ca L K eps eta) (x0, xhat0)
    (List.range' 1 (T - 1))
  let o1 ← mulMV C x0
  let o2 ← mulMV V (eta 0)
  let y0 ← addV o1 o2
  pure (x0 :: r.2.map (fun o => o.1), xhat0 :: r.2.map (fun o => o.2.1),
    [y0], r.2.map (fun o => o.2.2.2))

/-- Deterministic stand-in for one row of `random.normal(subkey,
shape=(T, x0.shape[0]))` in the checked layer; as in the source (model.py
lines 103, 105) the row length is `x0.shape[0]`, the length of the supplied
initial state. -/
def gaussDrawChecked (k len : ℕ) : ℕ → List ℚ :=
  fun t => (List.range len).map (fun i => (k : ℚ) + t + i)

/-- `System.simulate` (model.py lines 69-137) over checked lists: the
initial state defaults to `zeros(xdim)` with `xdim = A.shape[0]` (lines
43-49, 98), the initial belief to `zeros(bdim)` with `bdim = Aa.shape[0]`,
and each of the n trials runs on its own derived key.  A shape error in any
trial aborts the batched computation, as a traced `vmap` does. -/
def simulateChecked (A B C V W Aa Ba Ca L K : List (List ℚ)) (key n T : ℕ)
    (x0o : Option (List ℚ)) :
    Except LqgError (List (List (List ℚ) × List (List ℚ) × List (List ℚ) × List (List ℚ))) :=
  (keySplitMany key n).mapM (fun k =>
    let x0 := x0o.getD (List.replicate A.length 0)
    let xhat0 : List ℚ := List.replicate Aa.length 0
    let r1 := keySplit k
    let eps := gaussDrawChecked r1.2 x0.length
    let r2 := keySplit r1.1
    let eta := gaussDrawChecked r2.2 x0.length
    simulate_trial_checked A B C V W Aa Ba Ca L K T x0 xhat0 eps eta)

/-- Embeds the `Dynamics` dataclass over raw lists, exactly the fields
assigned by the generated `__init__` (model.py lines 11-17); dataclass
construction performs no validation. -/
structure DynamicsRaw where
  A : List (List ℚ)
  B : List (List ℚ)
  C : List (List ℚ)
  V : List (List ℚ)
  W : List (List ℚ)
deriving DecidableEq

/-- Embeds the `Actor` dataclass over raw lists (model.py lines 20-28). -/
structure ActorRaw where
  A : List (List ℚ)
  B : List (List ℚ)
  C : List (List ℚ)
  V : List (List ℚ)
  W : List (List ℚ)
  Q : List (List ℚ)
  R : List (List ℚ)
deriving DecidableEq

/-- Embeds the `System` object: `System.__init__` (model.py lines 38-40)
only stores its two arguments (`self.actor = actor; self.dynamics =
dynamics`); no shape validation of any kind is performed. -/
structure SystemRaw where
  actor : ActorRaw
  dynamics : DynamicsRaw
deriving DecidableEq

/-- Embeds `LQG.__init__` (model.py lines 188-192): builds
`Dynamics(A, B, C, V, W)` and `Actor(A, B, C, V, W, Q, R)` and delegates to
`System.__init__`.  Every operation involved is a plain field assignment;
nothing checks that the matrix shapes are mutually consistent. -/
def mkLQG (A B C V W Q R : List (List ℚ)) : SystemRaw :=
  { actor := { A := A, B := B, C := C, V := V, W := W, Q := Q, R := R }
    dynamics := { A := A, B := B, C := C, V := V, W := W } }

/-!
Concrete instances used by counterexamples and witnesses.
-/

/-- A 1-state/1-belief/1-action plant with `A = B = 0`, `C = V = W = 1`
(identity); with zero gains the augmented transition `F` is the zero matrix,
which makes the moment recursion explicitly computable. -/
def dynStatic : Dynamics 1 1 :=
  { A := !![0], B := !![0], C := !![1], V := !![1], W := !![1] }

/-- Controller side of `dynStatic` (same matrices, zero costs). -/
def actStatic : Actor 1 1 1 :=
  { A := !![0], B := !![0], C := !![1], V := !![1], W := !![1], Q := !![0], R := !![0] }

/-- A degenerate noise-free plant (`V = W = 0`, claim C6's scenario of a
zero observation-noise matrix, with the process noise also degenerate so
that the observed sub-block of `G Gᵀ` is singular). -/
def dynSingular : Dynamics 1 1 :=
  { A := !![1], B := !![0], C := !![1], V := !![0], W := !![0] }

/-- Controller side of `dynSingular`. -/
def actSingular : Actor 1 1 1 :=
  { A := !![1], B := !![0], C := !![1], V := !![0], W := !![0], Q := !![0], R := !![0] }

/-- A noise-free scalar integrator plant used for the gain-indexing claim:
`A = B = C = 1`, `V = W = 0`; the controller uses the same internal model. -/
def dynScalar : Dynamics 1 1 :=
  { A := !![1], B := !![1], C := !![1], V := !![0], W := !![0] }

/-- Controller side of `dynScalar`. -/
def actScalar : Actor 1 1 1 :=
  { A := !![1], B := !![1], C := !![1], V := !![0], W := !![0], Q := !![0], R := !![0] }

/-- A non-constant candidate feedback-gain sequence (`L[t] = [[t]]`),
with distinct elements at the two loop steps of a T = 3 trial. -/
def LsScalar : ℕ → Mat 1 1 := fun t => !![(t : ℚ)]

/-- A constant candidate estimator-gain sequence (`K[t] = [[1]]`). -/
def KsScalar : ℕ → Mat 1 1 := fun _ => !![1]

/-- Zero noise rows (the scalar examples are noise-free anyway since their
`V` and `W` vanish). -/
def zNoise : ℕ → Vec 1 := fun _ => 0

/-- The 2-state demo scenario of spec section 8 (`model.py` lines 195-221):
`A = C = eye(2)`, `B = [[0], [dt]]`, `V = diag(1, 0.5)`, `W = diag(6, 3)`,
`dt = 1/60`. -/
def dynDemo : Dynamics 2 1 :=
  { A := 1, B := !![0; 1/60], C := 1, V := !![1, 0; 0, 1/2], W := !![6, 0; 0, 3] }

/-- Controller side of the demo scenario, with `Q = [[1,-1],[-1,1]]` and
`R = [[1/2]]`. -/
def actDemo : Actor 2 2 1 :=
  { A := 1, B := !![0; 1/60], C := 1, V := !![1, 0; 0, 1/2], W := !![6, 0; 0, 3],
    Q := !![1, -1; -1, 1], R := !![1/2] }

/-- A concrete feedback gain for the demo scenario (the gain values come
from the out-of-scope `lqg/lqr.py`; the shape claims do not depend on
them). -/
def LDemo : Mat 1 2 := 0

/-- A concrete estimator gain for the demo scenario. -/
def KDemo : Mat 2 2 := 0

end LQG

namespace LQG

open Matrix

/-!
Helper lemmas (shared by the claim theorems below).
-/

theorem h12 : (1 : ℕ) ≤ 2 := by norm_num

theorem colsObs_mul {m D d : ℕ} (h : d ≤ D) (F : Matrix (Fin m) (Fin D) ℚ) (M : Mat D D) :
    colsObs h (F * M) = F * colsObs h M := by
  ext i j
  simp [colsObs, Matrix.mul_apply, Matrix.submatrix]

theorem rowsObs_mul {D d m : ℕ} (h : d ≤ D) (M : Mat D D) (N : Matrix (Fin D) (Fin m) ℚ) :
    rowsObs h (M * N) = rowsObs h M * N := by
  ext i j
  simp [rowsObs, Matrix.mul_apply, Matrix.submatrix]

theorem mInv_of_det_zero {m : ℕ} (M : Mat m m) (hdet : M.det = 0) : mInv M = 0 := by
  simp [mInv, hdet]

theorem scan_snd_length {σ α β : Type} (f : σ → α → σ × β) (c : σ) (l : List α) :
    ((scan f c l).2).length = l.length := by
  induction l generalizing c with
  | nil => simp [scan]
  | cons t ts ih => simp [scan, ih]

theorem blockMat_one_one (A B C D : Mat 1 1) :
    (blockMat A B C D : Mat 2 2) = !![A 0 0, B 0 0; C 0 0, D 0 0] := by
  ext i j
  fin_cases i <;> fin_cases j <;>
    simp [blockMat, Matrix.reindex_apply, Matrix.fromBlocks, finSumFinEquiv,
      Fin.addCases, Fin.castLT, Fin.subNat]

theorem tail_getD {α : Type} (l : List α) (t : ℕ) (d : α) :
    (l.tail).getD t d = l.getD (t + 1) d := by
  cases l <;> simp [List.getD]

theorem map_zip_getD {α β γ : Type} (f : α × β → γ) (l1 : List α) (l2 : List β)
    (t : ℕ) (h1 : t < l1.length) (h2 : t < l2.length) (da : α) (db : β) (dc : γ) :
    (((l1.zip l2).map f).getD t dc) = f (l1.getD t da, l2.getD t db) := by
  induction l1 generalizing l2 t with
  | nil => simp at h1
  | cons x xs ih =>
    cases l2 with
    | nil => simp at h2
    | cons y ys =>
      cases t with
      | zero => simp [List.getD]
      | succ t =>
        simp only [List.zip_cons_cons, List.map_cons, List.getD_cons_succ]
        exact ih ys t (by simpa using h1) (by simpa using h2)

theorem getD_map_of_lt {α β : Type} (f : α → β) (l : List α) (i : ℕ)
    (hi : i < l.length) (d0 : α) (d : β) :
    ((l.map f).getD i d) = f (l.getD i d0) := by
  induction l generalizing i with
  | nil => simp at hi
  | cons x xs ih =>
    cases i with
    | zero => simp [List.getD]
    | succ i =>
      simp only [List.map_cons, List.getD_cons_succ]
      exact ih i (by simpa using hi)

theorem keySplitMany_length (k n : ℕ) : (keySplitMany k n).length = n := by
  simp [keySplitMany]

theorem simulate_trial_shape {s b a : ℕ} (dyn : Dynamics s a) (act : Actor s b a)
    (L : Mat a b) (K : Mat b s) (T : ℕ) (x0 : Vec s) (xhat0 : Vec b)
    (eps eta : ℕ → Vec s) :
    (simulate_trial dyn act L K T x0 xhat0 eps eta).states.length = T - 1 + 1 ∧
    (simulate_trial dyn act L K T x0 xhat0 eps eta).beliefs.length = T - 1 + 1 ∧
    (simulate_trial dyn act L K T x0 xhat0 eps eta).actions.length = T - 1 ∧
    (simulate_trial dyn act L K T x0 xhat0 eps eta).obs.length = 1 ∧
    (simulate_trial dyn act L K T x0 xhat0 eps eta).states.getD 0 0 = x0 := by
  refine ⟨?_, ?_, ?_, ?_, ?_⟩ <;>
    simp [simulate_trial, scan_snd_length, List.getD]

theorem simulate_getD {s b a : ℕ} (dyn : Dynamics s a) (act : Actor s b a)
    (L : Mat a b) (K : Mat b s) (key n T : ℕ) (x0o : Option (Vec s)) (i : ℕ)
    (hi : i < n) :
    (simulate dyn act L K key n T x0o).getD i default =
      simulate_trial dyn act L K T (x0o.getD 0) 0
        (gaussDraw s (keySplit ((keySplitMany key n).getD i 0)).2)
        (gaussDraw s (keySplit (keySplit ((keySplitMany key n).getD i 0)).1).2) := by
  unfold simulate
  rw [getD_map_of_lt _ _ i (by simpa [keySplitMany_length] using hi) 0]

theorem mulMV_error (A : List (List ℚ)) (v : List ℚ) (s : ℕ) (hne : A ≠ [])
    (hrows : ∀ r ∈ A, r.length = s) (hv : v.length ≠ s) :
    mulMV A v = Except.error LqgError.dimensionError := by
  cases A with
  | nil => exact absurd rfl hne
  | cons r rest =>
    have hr : r.length = s := hrows r (List.mem_cons_self r rest)
    have hb : (r.length == v.length) = false := by
      rw [hr]
      exact beq_eq_false_iff_ne.mpr fun hc => hv hc.symm
    simp [mulMV, List.all_cons, hb]

theorem condStep_F_zero {D E d n : ℕ} (h : d ≤ D) (G : Matrix (Fin D) (Fin E) ℚ)
    (c : Matrix (Fin n) (Fin D) ℚ × Mat D D) (xt : Matrix (Fin n) (Fin d) ℚ) :
    condStep h (0 : Mat D D) G c xt = ((0, G * Gᵀ), (0, G * Gᵀ)) := by
  simp [condStep, colsObs, rowsObs]

theorem error_bind {α β : Type} (e : LqgError) (f : α → Except LqgError β) :
    (Except.error e >>= f) = Except.error e := rfl

theorem ok_bind {α β : Type} (a : α) (f : α → Except LqgError β) :
    (Except.ok a >>= f) = f a := rfl

theorem conditional_distribution_length {D E d n : ℕ} (h : d ≤ D) (F : Mat D D)
    (G : Matrix (Fin D) (Fin E) ℚ) (x : List (Matrix (Fin n) (Fin d) ℚ)) :
    (conditional_distribution h F G x).length = x.length := by
  simp [conditional_distribution, conditional_moments, scan_snd_length]

/-!
Claim theorems.
-/

/-- C1 (amended): each `conditional_moments` recursion step takes the
inverted block `Sigma[:d, :d]` and the innovation reference `mu[:, :d]`
from the *pre-prediction prior*, not from the predicted moments; the fused
one-line update of the source is exactly "condition the prior on its
observed sub-block, then predict" (condition-then-predict), for every
input. -/
theorem c1_theorem {D E d n : ℕ} (h : d ≤ D) (F : Mat D D) (G : Matrix (Fin D) (Fin E) ℚ)
    (c : Matrix (Fin n) (Fin D) ℚ × Mat D D) (xt : Matrix (Fin n) (Fin d) ℚ) :
    (condStep h F G c xt).1 = predictMoments F G (priorCondition h c xt) := by
  unfold condStep predictMoments priorCondition
  dsimp only
  refine Prod.ext ?_ ?_
  · rw [colsObs_mul, Matrix.transpose_mul, Matrix.add_mul, ← Matrix.mul_assoc]
  · rw [colsObs_mul, rowsObs_mul]
    simp only [Matrix.mul_sub, Matrix.sub_mul, Matrix.mul_assoc]
    abel

/-- C1 witness: the condition-then-predict identity evaluated at a concrete
step. -/
theorem c1_witness :
    (1 : ℕ) ≤ 2 ∧
    (condStep h12 (1 : Mat 2 2) (1 : Mat 2 2)
        ((!![1, 1] : Matrix (Fin 1) (Fin 2) ℚ), 1) !![3]).1 =
      predictMoments (1 : Mat 2 2) (1 : Mat 2 2)
        (priorCondition h12 ((!![1, 1] : Matrix (Fin 1) (Fin 2) ℚ), 1) !![3]) :=
  ⟨h12, c1_theorem h12 1 1 (!![1, 1], 1) !![3]⟩

/-- C1 counterexample: the source's step is NOT the claim's
predict-then-condition scheme (innovation and inverted block from the
predicted moments): at the concrete prior `mu = [[1, 1]]`, `Sigma = I`,
with `F = I`, `G = I` and observation `x_t = [[3]]`, the two updates yield
different covariances (`[[1,0],[0,2]]` for the source versus `[[0,0],[0,2]]`
for the claim's scheme, whose observed block is annihilated by the
conditioning). -/
theorem c1_counterexample :
    (condStep h12 (1 : Mat 2 2) (1 : Mat 2 2)
        ((!![1, 1] : Matrix (Fin 1) (Fin 2) ℚ), 1) !![3]).1.2 ≠
    (condStepSpec h12 (1 : Mat 2 2) (1 : Mat 2 2)
        ((!![1, 1] : Matrix (Fin 1) (Fin 2) ℚ), 1) !![3]).1.2 := by
  intro h
  have h00 : (condStep h12 (1 : Mat 2 2) (1 : Mat 2 2)
      ((!![1, 1] : Matrix (Fin 1) (Fin 2) ℚ), 1) !![3]).1.2 0 0 =
      (condStepSpec h12 (1 : Mat 2 2) (1 : Mat 2 2)
      ((!![1, 1] : Matrix (Fin 1) (Fin 2) ℚ), 1) !![3]).1.2 0 0 := by
    rw [h]
  revert h00
  simp [condStep, condStepSpec, mInv, colsObs, rowsObs, blockObs,
    Matrix.mul_apply, Matrix.submatrix, Matrix.det_fin_one, Matrix.adjugate_fin_one,
    Matrix.one_apply, Fin.sum_univ_two, Fin.sum_univ_one]

/-- C2 (amended): `log_likelihood` returns the per-(trial, step) matrix of
one-step-ahead log-densities, WITHOUT summing over time: entry (t, i) is
the log-density of observed step t+1 of trial i under the Gaussian
predictive distribution built from data up to step t (the parameters
produced by `conditional_distribution` on `x[:-1]`).  No aggregation to a
single value per trial occurs (`MultivariateNormal.log_prob` reduces only
the event dimension and the source applies no sum). -/
theorem c2_theorem {D E d n : ℕ} (h : d ≤ D) (F : Mat D D) (G : Matrix (Fin D) (Fin E) ℚ)
    (x : List (Matrix (Fin n) (Fin d) ℚ)) (t : ℕ) (i : Fin n)
    (ht : t + 1 < x.length) :
    (log_likelihood h F G x).getD t (fun _ => 0) i =
      gaussLogPdf (fun j => ((x.getD (t + 1) 0 i j : ℚ) : ℝ))
        (fun j => (((conditional_distribution h F G x.dropLast).getD t (0, 0)).1 i j : ℝ))
        (((conditional_distribution h F G x.dropLast).getD t (0, 0)).2.map Rat.cast) := by
  have h1 : t < (conditional_distribution h F G x.dropLast).length := by
    rw [conditional_distribution_length, List.length_dropLast]
    omega
  have h2 : t < x.tail.length := by
    rw [List.length_tail]
    omega
  unfold log_likelihood
  rw [map_zip_getD _ _ _ t h1 h2 (0, 0) 0]
  rw [tail_getD]

/-- C2 witness: the per-step decomposition evaluated at a concrete
trajectory of the static model. -/
theorem c2_witness :
    (0 : ℕ) + 1 < ([(!![0] : Matrix (Fin 1) (Fin 1) ℚ), !![1], !![2]]).length ∧
    (log_likelihood h12 (Fmat dynStatic actStatic 0 0) (Gmat dynStatic (0 : Mat 1 1))
        [(!![0] : Matrix (Fin 1) (Fin 1) ℚ), !![1], !![2]]).getD 0 (fun _ => 0) 0 =
      gaussLogPdf
        (fun j => ((([(!![0] : Matrix (Fin 1) (Fin 1) ℚ), !![1], !![2]]).getD (0 + 1) 0 0 j : ℚ) : ℝ))
        (fun j => (((conditional_distribution h12 (Fmat dynStatic actStatic 0 0)
            (Gmat dynStatic (0 : Mat 1 1))
            ([(!![0] : Matrix (Fin 1) (Fin 1) ℚ), !![1], !![2]]).dropLast).getD 0 (0, 0)).1 0 j : ℝ))
        (((conditional_distribution h12 (Fmat dynStatic actStatic 0 0)
            (Gmat dynStatic (0 : Mat 1 1))
            ([(!![0] : Matrix (Fin 1) (Fin 1) ℚ), !![1], !![2]]).dropLast).getD 0 (0, 0)).2.map
          Rat.cast) :=
  ⟨by norm_num,
   c2_theorem h12 (Fmat dynStatic actStatic 0 0) (Gmat dynStatic (0 : Mat 1 1))
     [!![0], !![1], !![2]] 0 0 (by norm_num)⟩

/-- C2 counterexample: `log_likelihood` does not return a single aggregated
value per trial: on the static model (`F = 0`, stationary unit predictive
variance) with the single-trial trajectory `x = [0, 1, 2]`, the entries of
trial 0 at steps 0 and 1 are `-(1/2) - (1/2) log(2 pi)` and
`-2 - (1/2) log(2 pi)` — two distinct per-step values along the retained
time axis, not one summed value per trial. -/
theorem c2_counterexample :
    (log_likelihood h12 (Fmat dynStatic actStatic 0 0) (Gmat dynStatic (0 : Mat 1 1))
        [(!![0] : Matrix (Fin 1) (Fin 1) ℚ), !![1], !![2]]).getD 0 (fun _ => 0) 0 ≠
    (log_likelihood h12 (Fmat dynStatic actStatic 0 0) (Gmat dynStatic (0 : Mat 1 1))
        [(!![0] : Matrix (Fin 1) (Fin 1) ℚ), !![1], !![2]]).getD 1 (fun _ => 0) 0 := by
  have hF : Fmat dynStatic actStatic 0 0 = 0 := by
    rw [Fmat, blockMat_one_one]
    ext i j
    fin_cases i <;> fin_cases j <;> simp [dynStatic, actStatic]
  have hG : Gmat dynStatic (0 : Mat 1 1) = (!![1, 0; 0, 0] : Mat 2 2) := by
    rw [Gmat, blockMat_one_one]
    ext i j
    fin_cases i <;> fin_cases j <;> simp [dynStatic]
  have hM : conditional_moments h12 (0 : Mat 2 2) (!![1, 0; 0, 0] : Mat 2 2)
      [(!![0] : Matrix (Fin 1) (Fin 1) ℚ), !![1]] none =
      [((0 : Matrix (Fin 1) (Fin 2) ℚ), !![1, 0; 0, 0] * (!![1, 0; 0, 0] : Mat 2 2)ᵀ),
       (0, !![1, 0; 0, 0] * (!![1, 0; 0, 0] : Mat 2 2)ᵀ)] := by
    simp only [conditional_moments, Option.getD_none, scan, condStep_F_zero]
  have hcols0 : colsObs h12 (0 : Matrix (Fin 1) (Fin 2) ℚ) = 0 := by
    ext i j
    simp [colsObs]
  have hBB : blockObs h12 (!![1, 0; 0, 0] * (!![1, 0; 0, 0] : Mat 2 2)ᵀ) =
      (!![1] : Mat 1 1) := by
    ext i j
    fin_cases i
    fin_cases j
    simp [blockObs, Matrix.mul_apply, Matrix.transpose_apply, Fin.sum_univ_two,
      Fin.castLE, Matrix.vecHead, Matrix.vecTail]
  have hcd : conditional_distribution h12 (0 : Mat 2 2) (!![1, 0; 0, 0] : Mat 2 2)
      [(!![0] : Matrix (Fin 1) (Fin 1) ℚ), !![1]] =
      [((0 : Matrix (Fin 1) (Fin 1) ℚ), (!![1] : Mat 1 1)), (0, !![1])] := by
    rw [conditional_distribution, hM]
    simp only [List.map_cons, List.map_nil, hcols0, hBB]
  have hS : ((!![1] : Mat 1 1).map Rat.cast : Matrix (Fin 1) (Fin 1) ℝ) = !![1] := by
    ext i j
    fin_cases i
    fin_cases j
    simp
  have hgauss : ∀ (xv mu : Fin 1 → ℝ),
      gaussLogPdf xv mu (!![1] : Matrix (Fin 1) (Fin 1) ℝ) =
        -(1 / 2) * ((xv 0 - mu 0) * (xv 0 - mu 0)) -
          (1 / 2) * Real.log (2 * Real.pi) := by
    intro xv mu
    simp [gaussLogPdf, Matrix.det_fin_one, Matrix.adjugate_fin_one, Matrix.mulVec,
      dotProduct, Fin.sum_univ_one]
  rw [hF, hG]
  unfold log_likelihood
  rw [show ([(!![0] : Matrix (Fin 1) (Fin 1) ℚ), !![1], !![2]]).dropLast =
    [(!![0] : Matrix (Fin 1) (Fin 1) ℚ), !![1]] from rfl]
  rw [show ([(!![0] : Matrix (Fin 1) (Fin 1) ℚ), !![1], !![2]]).tail =
    [(!![1] : Matrix (Fin 1) (Fin 1) ℚ), !![2]] from rfl]
  rw [hcd]
  simp only [List.zip_cons_cons, List.zip_nil_right, List.map_cons, List.map_nil,
    List.getD_cons_zero, List.getD_cons_succ, hS, hgauss]
  intro heq
  have h1 : (((!![1] : Matrix (Fin 1) (Fin 1) ℚ) 0 0 : ℚ) : ℝ) = 1 := by norm_num
  have h2 : (((!![2] : Matrix (Fin 1) (Fin 1) ℚ) 0 0 : ℚ) : ℝ) = 2 := by norm_num
  have h0 : (((0 : Matrix (Fin 1) (Fin 1) ℚ) 0 0 : ℚ) : ℝ) = 0 := by norm_num
  rw [h1, h2, h0] at heq
  norm_num at heq

/-- C3 (amended): for every valid model and horizon T ≥ 1, `simulate`
returns n trials; each trial's state sequence has T rows (not T+1: the scan
covers `arange(1, T)`, i.e. T-1 steps, plus the prepended initial row — the
source's own docstring says the return shape is (T, n, d)), each belief
sequence has T rows, each action sequence has T-1 rows, and the first state
row is exactly the supplied initial state (the zero vector when omitted). -/
theorem c3_theorem {s b a : ℕ} (dyn : Dynamics s a) (act : Actor s b a)
    (L : Mat a b) (K : Mat b s) (key n T : ℕ) (x0o : Option (Vec s)) (i : ℕ)
    (h1 : 1 ≤ T) (hi : i < n) :
    (simulate dyn act L K key n T x0o).length = n ∧
    ((simulate dyn act L K key n T x0o).getD i default).states.length = T ∧
    ((simulate dyn act L K key n T x0o).getD i default).beliefs.length = T ∧
    ((simulate dyn act L K key n T x0o).getD i default).actions.length = T - 1 ∧
    ((simulate dyn act L K key n T x0o).getD i default).states.getD 0 0 = x0o.getD 0 := by
  rw [simulate_getD dyn act L K key n T x0o i hi]
  have hs := simulate_trial_shape dyn act L K T (x0o.getD 0) 0
    (gaussDraw s (keySplit ((keySplitMany key n).getD i 0)).2)
    (gaussDraw s (keySplit (keySplit ((keySplitMany key n).getD i 0)).1).2)
  refine ⟨by simp [simulate, keySplitMany_length], ?_, ?_, hs.2.2.1, hs.2.2.2.2⟩
  · rw [hs.1]
    omega
  · rw [hs.2.1]
    omega

/-- C3 witness: the shape facts at a concrete T = 3, n = 1 demo run. -/
theorem c3_witness :
    ((1 : ℕ) ≤ 3 ∧ (0 : ℕ) < 1) ∧
    ((simulate dynDemo actDemo LDemo KDemo 0 1 3 none).length = 1 ∧
    ((simulate dynDemo actDemo LDemo KDemo 0 1 3 none).getD 0 default).states.length = 3 ∧
    ((simulate dynDemo actDemo LDemo KDemo 0 1 3 none).getD 0 default).beliefs.length = 3 ∧
    ((simulate dynDemo actDemo LDemo KDemo 0 1 3 none).getD 0 default).actions.length = 3 - 1 ∧
    ((simulate dynDemo actDemo LDemo KDemo 0 1 3 none).getD 0 default).states.getD 0 0 =
      (none : Option (Vec 2)).getD 0) :=
  ⟨⟨by norm_num, by norm_num⟩,
   c3_theorem dynDemo actDemo LDemo KDemo 0 1 3 none 0 (by norm_num) (by norm_num)⟩

/-- C3 counterexample: the spec-section-8 scenario (2-state demo model,
T = 1000, n = 10, zero initial state) produces a state sequence with 1000
rows, not 1001: the claimed shape (T+1, n, state-dim) is off by one. -/
theorem c3_counterexample :
    ((simulate dynDemo actDemo LDemo KDemo 0 10 1000 (some 0)).getD 0 default).states.length ≠ 1001 := by
  rw [simulate_getD dynDemo actDemo LDemo KDemo 0 10 1000 (some 0) 0 (by norm_num)]
  rw [(simulate_trial_shape dynDemo actDemo LDemo KDemo 1000 ((some (0 : Vec 2)).getD 0) 0
    (gaussDraw 2 (keySplit ((keySplitMany 0 10).getD 0 0)).2)
    (gaussDraw 2 (keySplit (keySplit ((keySplitMany 0 10).getD 0 0)).1).2)).1]
  norm_num

/-- C4 (amended): `simulate` applies the same gain matrices
`L = actor.L(T)` and `K = actor.K(T)` at every time step of the loop: its
trial recursion coincides with the time-indexed recursion of the claim
exactly when the gain sequences are constant.  No per-step element
selection occurs in the source (model.py lines 111, 121 use the matrices
bound once at lines 82-83). -/
theorem c4_theorem {s b a : ℕ} (dyn : Dynamics s a) (act : Actor s b a)
    (L : Mat a b) (K : Mat b s) (T : ℕ) (x0 : Vec s) (xhat0 : Vec b)
    (eps eta : ℕ → Vec s) :
    simulate_trial dyn act L K T x0 xhat0 eps eta =
      simulate_trial_indexed dyn act (fun _ => L) (fun _ => K) T x0 xhat0 eps eta := rfl

/-- C4 counterexample: with the non-constant candidate gain sequence
`L[t] = [[t]]` (distinct elements at the two loop steps of a T = 3 trial),
the claimed per-step-indexed recursion matches the source's constant-gain
recursion for NEITHER of the sequence's elements: whichever single matrix
`actor.L(T)` denotes, the source's loop (which applies it at every step)
cannot reproduce per-step gain selection. -/
theorem c4_counterexample :
    simulate_trial_indexed dynScalar actScalar LsScalar KsScalar 3
        (fun _ => 2) (fun _ => 1) zNoise zNoise ≠
      simulate_trial dynScalar actScalar (LsScalar 1) (KsScalar 1) 3
        (fun _ => 2) (fun _ => 1) zNoise zNoise ∧
    simulate_trial_indexed dynScalar actScalar LsScalar KsScalar 3
        (fun _ => 2) (fun _ => 1) zNoise zNoise ≠
      simulate_trial dynScalar actScalar (LsScalar 2) (KsScalar 2) 3
        (fun _ => 2) (fun _ => 1) zNoise zNoise := by
  constructor
  · intro h
    have hv := congrArg (fun tr => tr.actions.getD 1 0 0) h
    revert hv
    have hr : List.range' 1 2 = [1, 2] := rfl
    simp [simulate_trial, simulate_trial_indexed, scan, loop, loopIndexed, hr,
      dynScalar, actScalar, LsScalar, KsScalar, zNoise, Matrix.mulVec, dotProduct,
      Fin.sum_univ_one, List.getD, Matrix.vecHead, Matrix.vecTail, Function.comp]
    norm_num
  · intro h
    have hv := congrArg (fun tr => tr.actions.getD 0 0 0) h
    revert hv
    have hr : List.range' 1 2 = [1, 2] := rfl
    simp [simulate_trial, simulate_trial_indexed, scan, loop, loopIndexed, hr,
      dynScalar, actScalar, LsScalar, KsScalar, zNoise, Matrix.mulVec, dotProduct,
      Fin.sum_univ_one, List.getD, Matrix.vecHead, Matrix.vecTail, Function.comp]

/-- C5 (amended): the observation slot returned by `simulate_trial` always
contains exactly one row, the step-0 observation computed as
`C @ x0 + V @ eta[0]` (note: the matrix `V` and the noise row `eta[0]`, not
`W` and a fresh draw); the in-loop observations `y` are computed but never
returned. -/
theorem c5_theorem {s b a : ℕ} (dyn : Dynamics s a) (act : Actor s b a)
    (L : Mat a b) (K : Mat b s) (T : ℕ) (x0 : Vec s) (xhat0 : Vec b)
    (eps eta : ℕ → Vec s) :
    (simulate_trial dyn act L K T x0 xhat0 eps eta).obs =
      [dyn.C.mulVec x0 + dyn.V.mulVec (eta 0)] := rfl

/-- C5 counterexample: in the demo scenario with T = 3, the observation
sequence returned by `simulate` has a single row, not one row per simulated
time step. -/
theorem c5_counterexample :
    ((simulate dynDemo actDemo LDemo KDemo 0 1 3 (some 0)).getD 0 default).obs.length ≠ 3 := by
  rw [simulate_getD dynDemo actDemo LDemo KDemo 0 1 3 (some 0) 0 (by norm_num)]
  simp [simulate_trial]

/-- C6 (amended): `conditional_moments` performs no singularity check and
raises no error when the observed sub-block `Sigma[:d, :d]` is singular:
`jnp.linalg.inv` is total (it silently returns non-finite values on
singular input in floating point) and the recursion returns normally.  In
the exact-arithmetic embedding, whose total inverse returns the zero matrix
on singular input, the conditioning correction vanishes and the step
degenerates to the pure prediction. -/
theorem c6_theorem {D E d n : ℕ} (h : d ≤ D) (F : Mat D D) (G : Matrix (Fin D) (Fin E) ℚ)
    (c : Matrix (Fin n) (Fin D) ℚ × Mat D D) (xt : Matrix (Fin n) (Fin d) ℚ)
    (hdet : (blockObs h c.2).det = 0) :
    condStep h F G c xt =
      ((c.1 * Fᵀ, F * c.2 * Fᵀ + G * Gᵀ), (c.1 * Fᵀ, F * c.2 * Fᵀ + G * Gᵀ)) := by
  have hinv : mInv (blockObs h c.2) = 0 := mInv_of_det_zero _ hdet
  simp [condStep, hinv]

/-- C6 witness: the singular-block step evaluated at a concrete singular
prior. -/
theorem c6_witness :
    (blockObs h12 ((0 : Mat 2 2))).det = 0 ∧
    condStep h12 (1 : Mat 2 2) (0 : Mat 2 2)
        ((0 : Matrix (Fin 1) (Fin 2) ℚ), (0 : Mat 2 2)) !![5] =
      (((0 : Matrix (Fin 1) (Fin 2) ℚ) * (1 : Mat 2 2)ᵀ,
          (1 : Mat 2 2) * (0 : Mat 2 2) * (1 : Mat 2 2)ᵀ + (0 : Mat 2 2) * (0 : Mat 2 2)ᵀ),
        ((0 : Matrix (Fin 1) (Fin 2) ℚ) * (1 : Mat 2 2)ᵀ,
          (1 : Mat 2 2) * (0 : Mat 2 2) * (1 : Mat 2 2)ᵀ + (0 : Mat 2 2) * (0 : Mat 2 2)ᵀ)) :=
  ⟨by simp [blockObs, Matrix.det_fin_one],
   c6_theorem h12 1 0 (0, 0) !![5] (by simp [blockObs, Matrix.det_fin_one])⟩

/-- C6 counterexample: with the zero noise matrices of `dynSingular`
(claim C6's "W is the zero matrix" scenario, with `V` also zero so that the
observed block of `G Gᵀ` is singular from the first step), the observed
sub-block covariance is singular and yet `conditional_moments` completes
normally, returning ordinary values — no `NumericalError` (or any other
failure) occurs, because the source has no raising path: `jnp.linalg.inv`
is total. -/
theorem c6_counterexample :
    (blockObs h12 (Gmat dynSingular (0 : Mat 1 1) * (Gmat dynSingular (0 : Mat 1 1))ᵀ)).det = 0 ∧
    conditional_moments h12 (Fmat dynSingular actSingular 0 0) (Gmat dynSingular (0 : Mat 1 1))
      [(!![1] : Matrix (Fin 1) (Fin 1) ℚ), !![2]] none = [(0, 0), (0, 0)] := by
  have hG : Gmat dynSingular (0 : Mat 1 1) = 0 := by
    rw [Gmat, blockMat_one_one]
    ext i j
    fin_cases i <;> fin_cases j <;> simp [dynSingular]
  constructor
  · rw [hG]
    simp [blockObs, Matrix.det_fin_one]
  · rw [hG]
    simp [conditional_moments, scan, condStep, colsObs, rowsObs, blockObs]

/-- C7: `simulate` is deterministic in its explicit inputs: two calls with
the same key, trial count, horizon and initial state return identical
output.  The embedding threads the random source exactly as the source
does (the key is split and consumed at model.py lines 102-105 and 132;
no other source of randomness or mutable state is read anywhere in
`simulate`), so the result is a pure function of the four arguments. -/
theorem c7_theorem {s b a : ℕ} (dyn : Dynamics s a) (act : Actor s b a)
    (L : Mat a b) (K : Mat b s) (k1 k2 n1 n2 T1 T2 : ℕ)
    (x1 x2 : Option (Vec s)) (hk : k1 = k2) (hn : n1 = n2) (hT : T1 = T2)
    (hx : x1 = x2) :
    simulate dyn act L K k1 n1 T1 x1 = simulate dyn act L K k2 n2 T2 x2 := by
  subst hk
  subst hn
  subst hT
  subst hx
  rfl

/-- C7 witness: determinism at a concrete repeated call. -/
theorem c7_witness :
    (0 : ℕ) = 0 ∧ (2 : ℕ) = 2 ∧ (3 : ℕ) = 3 ∧
    (none : Option (Vec 2)) = none ∧
    simulate dynDemo actDemo LDemo KDemo 0 2 3 none =
      simulate dynDemo actDemo LDemo KDemo 0 2 3 none :=
  ⟨rfl, rfl, rfl, rfl,
   c7_theorem dynDemo actDemo LDemo KDemo 0 0 2 2 3 3 none none rfl rfl rfl rfl⟩

/-- C8: for every call to `simulate` with a non-None initial state whose
length differs from the model's state dimension `A.shape[0]`, the
computation fails with the dimension-mismatch error (the spec's
`DimensionError`): the first operation consuming the initial state
(`A @ x` in the first loop step, or `C @ x0` in the step-0 observation when
the loop is empty) detects the mismatched dimension at the point of use and
aborts the batched run, as jax's eager shape checking does.  The
hypotheses say that `A` and `C` are well-formed `s`×`s` matrices of the
model (s ≥ 1) and that at least one trial and one time step are
requested. -/
theorem c8_theorem (A B C V W Aa Ba Ca L K : List (List ℚ)) (key n T : ℕ)
    (x0 : List ℚ)
    (hA : ∀ r ∈ A, r.length = A.length)
    (hCl : C.length = A.length) (hC : ∀ r ∈ C, r.length = A.length)
    (hs : 1 ≤ A.length) (hn : 1 ≤ n)
    (hx : x0.length ≠ A.length) :
    simulateChecked A B C V W Aa Ba Ca L K key n T (some x0) =
      Except.error LqgError.dimensionError := by
  have hAne : A ≠ [] := by
    intro hnil
    rw [hnil] at hs
    simp at hs
  have hCne : C ≠ [] := by
    intro hnil
    rw [hnil] at hCl
    simp at hCl
    omega
  have hmulA : mulMV A x0 = Except.error LqgError.dimensionError :=
    mulMV_error A x0 A.length hAne hA hx
  have hmulC : mulMV C x0 = Except.error LqgError.dimensionError :=
    mulMV_error C x0 A.length hCne hC hx
  have htrial : ∀ (eps eta : ℕ → List ℚ) (xh0 : List ℚ),
      simulate_trial_checked A B C V W Aa Ba Ca L K T x0 xh0 eps eta =
        Except.error LqgError.dimensionError := by
    intro eps eta xh0
    unfold simulate_trial_checked
    cases hT1 : T - 1 with
    | zero =>
      simp [scanChecked, hmulC, error_bind, ok_bind]
    | succ m =>
      rw [List.range'_succ]
      have hloop : loopChecked A B C V W Aa Ba Ca L K eps eta (x0, xh0) 1 =
          Except.error LqgError.dimensionError := by
        unfold loopChecked
        cases hu : mulMV L xh0 with
        | error e =>
          cases e
          rfl
        | ok u0 =>
          simp [hu, hmulA, error_bind, ok_bind]
      simp [scanChecked, hloop, error_bind, ok_bind]
  obtain ⟨k, ks, hks⟩ : ∃ k ks, keySplitMany key n = k :: ks := by
    cases hkk : keySplitMany key n with
    | nil =>
      exfalso
      have hl := keySplitMany_length key n
      rw [hkk] at hl
      simp at hl
      omega
    | cons k ks => exact ⟨k, ks, rfl⟩
  unfold simulateChecked
  rw [hks, List.mapM_cons]
  simp [htrial, error_bind, ok_bind]

/-- C8 witness: the dimension failure at a concrete 1-state model with a
length-2 initial state. -/
theorem c8_witness :
    ((∀ r ∈ ([[(1 : ℚ)]] : List (List ℚ)), r.length = ([[(1 : ℚ)]] : List (List ℚ)).length) ∧
     ([[(1 : ℚ)]] : List (List ℚ)).length = ([[(1 : ℚ)]] : List (List ℚ)).length ∧
     (∀ r ∈ ([[(1 : ℚ)]] : List (List ℚ)), r.length = ([[(1 : ℚ)]] : List (List ℚ)).length) ∧
     1 ≤ ([[(1 : ℚ)]] : List (List ℚ)).length ∧ (1 : ℕ) ≤ 1 ∧
     ([(1 : ℚ), 2] : List ℚ).length ≠ ([[(1 : ℚ)]] : List (List ℚ)).length) ∧
    simulateChecked [[1]] [[1]] [[1]] [[1]] [[1]] [[1]] [[1]] [[1]] [[1]] [[1]]
        0 1 1 (some [1, 2]) = Except.error LqgError.dimensionError :=
  ⟨⟨by decide, by decide, by decide, by decide, by decide, by decide⟩,
   c8_theorem [[1]] [[1]] [[1]] [[1]] [[1]] [[1]] [[1]] [[1]] [[1]] [[1]] 0 1 1 [1, 2]
     (by decide) (by decide) (by decide) (by decide) (by decide) (by decide)⟩

/-- C9 (amended): constructing the model performs no validation at all:
`LQG.__init__` (and `System.__init__`, and the dataclass constructors it
calls) simply stores the supplied matrices unchanged, for every input —
mutually inconsistent shapes included.  Shape errors can only surface later,
when a simulation or filtering operation is invoked. -/
theorem c9_theorem (A B C V W Q R : List (List ℚ)) :
    mkLQG A B C V W Q R =
      { actor := { A := A, B := B, C := C, V := V, W := W, Q := Q, R := R }
        dynamics := { A := A, B := B, C := C, V := V, W := W } } := rfl

/-- C9 counterexample: with `A` a 1×1 matrix and `B` a 2-row matrix (B's
row count ≠ A's row count, the claim's own example of mutually inconsistent
shapes), construction succeeds and returns the stored system — no
`ShapeError` (or any other failure) occurs at construction time. -/
theorem c9_counterexample :
    ([[(1 : ℚ)], [2]] : List (List ℚ)).length ≠ ([[(1 : ℚ)]] : List (List ℚ)).length ∧
    mkLQG [[1]] [[1], [2]] [[1]] [[1]] [[1]] [[1]] [[1]] =
      { actor := { A := [[1]], B := [[1], [2]], C := [[1]], V := [[1]], W := [[1]],
                   Q := [[1]], R := [[1]] }
        dynamics := { A := [[1]], B := [[1], [2]], C := [[1]], V := [[1]], W := [[1]] } } :=
  ⟨by norm_num, rfl⟩

/-- C10: when `mu0` is omitted, `conditional_moments` runs its scan from
the zero joint mean (an n × (s+b) zero stack, one zero row per trial) and
the initial joint covariance `G Gᵀ`; the same initialization results from
passing the zero mean explicitly, and — the filter being a pure function
with no state outside the call — it is applied identically on every call. -/
theorem c10_theorem {D E d n : ℕ} (h : d ≤ D) (F : Mat D D)
    (G : Matrix (Fin D) (Fin E) ℚ) (x : List (Matrix (Fin n) (Fin d) ℚ)) :
    conditional_moments h F G x none = conditional_moments_from h F G x 0 (G * Gᵀ) ∧
    conditional_moments h F G x none = conditional_moments h F G x (some 0) :=
  ⟨rfl, rfl⟩

/-- C10 witness: the default initialization evaluated at a concrete model
and data batch. -/
theorem c10_witness :
    (1 : ℕ) ≤ 2 ∧
    (conditional_moments h12 (1 : Mat 2 2) (1 : Mat 2 2)
        [(!![0] : Matrix (Fin 1) (Fin 1) ℚ)] none =
      conditional_moments_from h12 (1 : Mat 2 2) (1 : Mat 2 2)
        [(!![0] : Matrix (Fin 1) (Fin 1) ℚ)] 0 ((1 : Mat 2 2) * (1 : Mat 2 2)ᵀ) ∧
    conditional_moments h12 (1 : Mat 2 2) (1 : Mat 2 2)
        [(!![0] : Matrix (Fin 1) (Fin 1) ℚ)] none =
      conditional_moments h12 (1 : Mat 2 2) (1 : Mat 2 2)
        [(!![0] : Matrix (Fin 1) (Fin 1) ℚ)] (some 0)) :=
  ⟨h12, c10_theorem h12 1 1 [!![0]]⟩

end LQG
